import Mathlib

/-!
Verification of the StandAlone SWD programmer core.

This file shallowly embeds the C sources of the repository:
  * `Src/hex_parser.c`  — the Intel HEX line parser and stream assembler,
  * `swd_dap.c`         — the bit-banged SWD transport and flash driver,
  * `Src/main.c`        — the `Program_Target` orchestrator.

Characters and bytes are `Nat`; C strings are `List Nat` of the bytes in the
buffer (reads past the end return the terminating NUL, value 0); 8/16/32-bit
machine arithmetic is `Nat` with explicit `% 2^w` casts where the C code
truncates.  Fallible C functions returning `-1` are embedded as `Option` or as
an explicit `Int` status, exactly following the source's control flow.
-/

set_option maxRecDepth 4000

/-- C cast `(uint8_t)v` of an `int` value (two's complement low byte). -/
def c_u8 (v : Int) : Nat := (v % 256).toNat

/-- C cast `(uint16_t)v` of an `int` value. -/
def c_u16 (v : Int) : Nat := (v % 65536).toNat

/-- 32-bit truncation, `(uint32_t)` arithmetic. -/
def u32 (n : Nat) : Nat := n % 4294967296

/-- Read `line[i]` from a NUL-terminated C string: past the stored bytes the
terminator (0) is read. -/
def strGet (line : List Nat) (i : Nat) : Nat := line.getD i 0

/-- C `strlen`: number of bytes before the first NUL. -/
def strlen (line : List Nat) : Nat := (line.takeWhile (fun c => c != 0)).length

/-- `memcpy(&dst[off], src, src.length)` on a byte list. -/
def listWrite (dst : List Nat) (off : Nat) (src : List Nat) : List Nat :=
  dst.take off ++ src ++ dst.drop (off + src.length)

/-- `hex_char_to_int` from `hex_parser.c`: value of a hex digit, `-1` if the
character is not a hex digit. -/
def hex_char_to_int (c : Nat) : Int :=
  if 48 ≤ c ∧ c ≤ 57 then (c : Int) - 48
  else if 65 ≤ c ∧ c ≤ 70 then (c : Int) - 65 + 10
  else if 97 ≤ c ∧ c ≤ 102 then (c : Int) - 97 + 10
  else -1

/-- `hex_string_to_byte(line + p)`: two hex digits at offset `p`, or `-1`. -/
def hex_string_to_byte (line : List Nat) (p : Nat) : Int :=
  let high := hex_char_to_int (strGet line p)
  let low := hex_char_to_int (strGet line (p + 1))
  if high < 0 ∨ low < 0 then -1 else high * 16 + low

/-- `hex_string_to_word(line + p)`: four hex digits at offset `p`, or `-1`. -/
def hex_string_to_word (line : List Nat) (p : Nat) : Int :=
  let hb := hex_string_to_byte line p
  let lb := hex_string_to_byte line (p + 2)
  if hb < 0 ∨ lb < 0 then -1 else hb * 256 + lb

/-- The summing loop of `HEX_VerifyChecksum`: starting at offset `p`, add the
byte pairs while `ptr < line + len - 2`, accumulating in a `uint8_t`.  Returns
`none` when a pair is not valid hex (the C code returns `-1`), otherwise the
accumulated sum and the final pointer offset.  The loop advances the pointer
by 2 while it is below `len - 2`, so it runs fewer than `len` iterations; a
`fuel` argument of `len` makes the recursion structural without changing the
computed value. -/
def sumLoop (line : List Nat) (len : Nat) : Nat → Nat → Nat → Option (Nat × Nat)
  | 0, p, s => some (s, p)
  | fuel + 1, p, s =>
    if p + 2 < len then
      if hex_string_to_byte line p < 0 then none
      else sumLoop line len fuel (p + 2) ((s + (hex_string_to_byte line p).toNat) % 256)
    else some (s, p)

/-- `HEX_VerifyChecksum` from `hex_parser.c`: `0` if the checksum is valid,
`-1` otherwise. -/
def HEX_VerifyChecksum (line : List Nat) : Int :=
  if strGet line 0 ≠ 58 then -1
  else
    let len := strlen line
    if len < 11 then -1
    else
      match sumLoop line len len 1 0 with
      | none => -1
      | some (s, p) =>
        let checksum := c_u8 (hex_string_to_byte line p)
        if (s + checksum) % 256 = 0 then 0 else -1

/-- The byte pairs the checksum loop decodes, as a list (same recursion as
`sumLoop`, collecting the decoded bytes instead of summing them). -/
def decodeLoop (line : List Nat) (len : Nat) : Nat → Nat → Option (List Nat)
  | 0, _ => some []
  | fuel + 1, p =>
    if p + 2 < len then
      if hex_string_to_byte line p < 0 then none
      else
        match decodeLoop line len fuel (p + 2) with
        | none => none
        | some bs => some ((hex_string_to_byte line p).toNat :: bs)
    else some []

/-- All decoded record bytes of a line, including the trailing checksum byte
(the byte at the loop's final pointer, with the C `(uint8_t)` cast). -/
def lineBytes (line : List Nat) : Option (List Nat) :=
  match decodeLoop line (strlen line) (strlen line) 1 with
  | none => none
  | some bs => some (bs ++ [c_u8 (hex_string_to_byte line (1 + 2 * bs.length))])

theorem sumLoop_eq_decodeLoop (line : List Nat) (len : Nat) :
    ∀ (fuel p s : Nat), s < 256 →
      sumLoop line len fuel p s =
        (decodeLoop line len fuel p).map (fun bs => ((s + bs.sum) % 256, p + 2 * bs.length)) := by
  intro fuel
  induction fuel with
  | zero =>
    intro p s hs
    simp [sumLoop, decodeLoop, Nat.mod_eq_of_lt hs]
  | succ n ih =>
    intro p s hs
    simp only [sumLoop, decodeLoop]
    split
    · split
      · simp
      · rw [ih (p + 2) _ (Nat.mod_lt _ (by omega))]
        cases hd : decodeLoop line len n (p + 2) with
        | none => simp
        | some bs =>
          simp only [Option.map_some]
          refine congrArg some (Prod.ext ?_ ?_)
          · simp only [List.sum_cons]
            omega
          · simp only [List.length_cons]
            omega
    · simp [Nat.mod_eq_of_lt hs]

/-- The parsed-record structure `HEX_Record_t` of `hex_parser.h`.  `data`
holds the `data_len` decoded data bytes; `extended_address` is the value of
the module variable `current_extended_address` at parse time. -/
structure HEX_Record_t where
  record_type : Nat
  address : Nat
  data_len : Nat
  data : List Nat
  extended_address : Nat
deriving DecidableEq

/-- The data-byte loop of `HEX_ParseLine`: decode `n` byte pairs starting at
offset `p`, failing when a pair is not valid hex. -/
def parseData (line : List Nat) : Nat → Nat → Option (List Nat)
  | _, 0 => some []
  | p, n + 1 =>
    if hex_string_to_byte line p < 0 then none
    else
      match parseData line (p + 2) n with
      | none => none
      | some rest => some ((hex_string_to_byte line p).toNat :: rest)

/-- `HEX_ParseLine` from `hex_parser.c`.  The module-level
`current_extended_address` is threaded explicitly: the function takes its
value `ext` before the call and returns the record together with its value
after the call (the C function assigns it only for a Type-04 record with
`data_len == 2`).  `none` is the C return value `-1`. -/
def HEX_ParseLine (line : List Nat) (ext : Nat) : Option (HEX_Record_t × Nat) :=
  if strGet line 0 ≠ 58 then none
  else if HEX_VerifyChecksum line ≠ 0 then none
  else
    let dl := c_u8 (hex_string_to_byte line 1)
    let addr := c_u16 (hex_string_to_word line 3)
    let rt := c_u8 (hex_string_to_byte line 7)
    match parseData line 9 dl with
    | none => none
    | some ds =>
      let record : HEX_Record_t :=
        { record_type := rt, address := addr, data_len := dl, data := ds,
          extended_address := ext }
      let ext' :=
        if rt = 4 ∧ dl = 2 then (ds.getD 0 0) <<< 24 ||| (ds.getD 1 0) <<< 16
        else ext
      some (record, ext')

/-- `Program_Sector_t` of `hex_parser.h`: the 512-byte write unit being
assembled (`SECTOR_SIZE = 512`). -/
structure Program_Sector_t where
  base_address : Nat
  data : List Nat
  size : Nat
deriving DecidableEq

/-- `HEX_ProcessRecord` from `hex_parser.c`.  Returns the C status
(`0` ok, `1` flush needed, `-1` error) together with the sector state after
the call (the C function mutates `sector` in place). -/
def HEX_ProcessRecord (record : HEX_Record_t) (sector : Program_Sector_t) :
    Int × Program_Sector_t :=
  if record.record_type ≠ 0 then (0, sector)
  else
    let full_address := record.extended_address ||| record.address
    let sector :=
      if sector.size = 0 then
        { sector with base_address := full_address, data := List.replicate 512 255 }
      else sector
    if full_address < sector.base_address ∨
        u32 (sector.base_address + 512) ≤ full_address then
      (1, sector)
    else
      let offset := full_address - sector.base_address
      if 512 < offset + record.data_len then (-1, sector)
      else
        let data' := listWrite sector.data offset (record.data.take record.data_len)
        let size' :=
          if sector.size < offset + record.data_len then offset + record.data_len
          else sector.size
        (0, { sector with data := data', size := size' })

/-- One call of the `program_callback` sink: the arguments
`(sector.base_address, sector.data, sector.size)` passed by a flush in
`HEX_ProcessFile`. -/
structure Emission where
  addr : Nat
  data : List Nat
  size : Nat
deriving DecidableEq

/-- The emission a flush of `sector` produces. -/
def mkEmission (sector : Program_Sector_t) : Emission :=
  ⟨sector.base_address, sector.data, sector.size⟩

/-- `if (sector.size > 0) program_callback(...)`: the sink calls a
conditional flush makes. -/
def pendingFlush (sector : Program_Sector_t) : List Emission :=
  if sector.size > 0 then [mkEmission sector] else []

/-- The mutable state of one `HEX_ProcessFile` call: the sector being filled,
the module variable `current_extended_address`, and the sink calls made so
far (in order).  The sink is modelled as always succeeding and recording its
arguments. -/
structure PFState where
  sector : Program_Sector_t
  ext : Nat
  ems : List Emission
deriving DecidableEq

/-- Outcome of a piece of `HEX_ProcessFile`: an early `return 0` / `return -1`
with the sink calls made, or control continuing with the updated state. -/
inductive PFOut where
  | ok (ems : List Emission)
  | err (ems : List Emission)
  | going (st : PFState)
deriving DecidableEq

/-- The body of `HEX_ProcessFile`'s per-line block (`hex_parser.c`,
lines 304-340): parse the terminated line, handle EOF, process the record,
flushing and retrying once when the record does not fit the current sector. -/
def processLine (line : List Nat) (st : PFState) : PFOut :=
  match HEX_ParseLine line st.ext with
  | none => .err st.ems
  | some (record, ext') =>
    if record.record_type = 1 then
      .ok (st.ems ++ pendingFlush st.sector)
    else
      let (r, sector') := HEX_ProcessRecord record st.sector
      if r = 1 then
        let ems' := st.ems ++ pendingFlush sector'
        let zeroed : Program_Sector_t := ⟨0, List.replicate 512 0, 0⟩
        let (r2, sector'') := HEX_ProcessRecord record zeroed
        if r2 ≠ 0 then .err ems'
        else .going ⟨sector'', ext', ems'⟩
      else if r < 0 then .err st.ems
      else .going ⟨sector', ext', st.ems⟩

/-- The character scan of one `SD_ReadSector` chunk (`hex_parser.c`,
lines 294-346): `acc` is the accumulated line (`line_buffer[0..line_len)`),
reset to empty at the start of every chunk; CR and LF terminate a line;
characters beyond `HEX_LINE_MAX_LEN - 1 = 255` are dropped. -/
def scanChunk : List Nat → List Nat → PFState → PFOut
  | [], _, st => .going st
  | c :: rest, acc, st =>
    if c = 10 ∨ c = 13 then
      if 0 < acc.length then
        match processLine acc st with
        | .going st' => scanChunk rest [] st'
        | out => out
      else scanChunk rest acc st
    else if acc.length < 255 then scanChunk rest (acc ++ [c]) st
    else scanChunk rest acc st

/-- The outer `while (1)` read loop of `HEX_ProcessFile`: each chunk is one
`SD_ReadSector` result; an exhausted chunk list is `bytes_read == 0`.
`.going st` means the stream ended without an early return. -/
def foldChunks : List (List Nat) → PFState → PFOut
  | [], st => .going st
  | chunk :: rest, st =>
    match scanChunk chunk [] st with
    | .going st' => foldChunks rest st'
    | out => out

/-- The state at the top of `HEX_ProcessFile`: zeroed sector
(`memset(&sector, 0, ...)`), `current_extended_address = 0`, no sink calls. -/
def pfInit : PFState := ⟨⟨0, List.replicate 512 0, 0⟩, 0, []⟩

set_option linter.unusedVariables false in
/-- `HEX_ProcessFile` from `hex_parser.c`, over the list of byte chunks the
storage layer delivers.  `ext_in` is the value the module variable
`current_extended_address` holds when the call starts; the function body
overwrites it with 0 before reading (`current_extended_address = 0`), so the
result never depends on it.  After the last chunk the pending sector is
flushed and 0 is returned. -/
def HEX_ProcessFile (ext_in : Nat) (chunks : List (List Nat)) : PFOut :=
  match foldChunks chunks pfInit with
  | .going st => .ok (st.ems ++ pendingFlush st.sector)
  | out => out

/-- Is the outcome the C return value 0? -/
def pfIsOk : PFOut → Bool
  | .ok _ => true
  | _ => false

/-- Is the outcome the C return value -1? -/
def pfIsErr : PFOut → Bool
  | .err _ => true
  | _ => false

/-- Did control reach the end of the read loop? -/
def pfIsGoing : PFOut → Bool
  | .going _ => true
  | _ => false

/-- The sink calls recorded in an outcome. -/
def pfEmissions : PFOut → List Emission
  | .ok ems => ems
  | .err ems => ems
  | .going st => st.ems

/-- The state carried by a `.going` outcome (`pfInit` otherwise). -/
def goingState : PFOut → PFState
  | .going st => st
  | _ => pfInit

/-- Bytes of an ASCII string literal. -/
def strBytes (s : String) : List Nat := s.data.map Char.toNat

/-! ## SWD transport (`swd_dap.c`) -/

/-- `CalcParity` from `swd_dap.c`: even parity of the 32 low bits. -/
def CalcParity (value : Nat) : Nat :=
  (List.range 32).foldl (fun p i => if (value >>> i) &&& 1 = 1 then p ^^^ 1 else p) 0

/-- The request byte `SWD_ReadDP` builds:
`request = 0x81; request |= (addr & 0x0C); request |= CalcParity(request) << 5`. -/
def SWD_ReadDP_request (addr : Nat) : Nat :=
  let request := 0x81 ||| (addr &&& 0x0C)
  request ||| (CalcParity request <<< 5)

/-- The request byte `SWD_WriteDP` builds:
`request = 0x81; request &= ~0x04; request |= (addr & 0x0C); ... parity`. -/
def SWD_WriteDP_request (addr : Nat) : Nat :=
  let request := (0x81 &&& 0xFB) ||| (addr &&& 0x0C)
  request ||| (CalcParity request <<< 5)

/-- The request byte `SWD_ReadAP` builds (base `0x85`). -/
def SWD_ReadAP_request (addr : Nat) : Nat :=
  let request := 0x85 ||| (addr &&& 0x0C)
  request ||| (CalcParity request <<< 5)

/-- The request byte `SWD_WriteAP` builds (base `0x85`, then `&= ~0x04`). -/
def SWD_WriteAP_request (addr : Nat) : Nat :=
  let request := (0x85 &&& 0xFB) ||| (addr &&& 0x0C)
  request ||| (CalcParity request <<< 5)

/-- The order in which `SWD_WriteByte` (called by `SWD_TransferPacket` on the
request byte) drives the byte onto the wire: bit 0 first. -/
def SWD_WriteByte_bits (b : Nat) : List Nat :=
  (List.range 8).map (fun i => (b >>> i) &&& 1)

/-- Modelled from the spec: the request bit sequence the claim demands, in
transmission order `start(1), APnDP, RnW, A[2], A[3], parity, stop(0),
park(1)` with the parity bit the even parity of the APnDP/RnW/A[2]/A[3]
bits. -/
def adiv5RequestBits (apndp rnw addr : Nat) : List Nat :=
  let a2 := (addr >>> 2) &&& 1
  let a3 := (addr >>> 3) &&& 1
  [1, apndp, rnw, a2, a3, (apndp + rnw + a2 + a3) % 2, 0, 1]

/-! ## Flash driver (`swd_dap.c`) -/

/-- The sequence of `(address, half_word)` data writes the loop of
`Flash_Program` issues (`for (i = 0; i < size; i += 2)`):
`half_word = data[i]; if (i + 1 < size) half_word |= data[i+1] << 8;
Target_WriteMemory(address + i, &half_word, 2)`. -/
def Flash_Program_halfwords : Nat → List Nat → List (Nat × Nat)
  | _, [] => []
  | address, [b] => [(address, b)]
  | address, b0 :: b1 :: rest =>
    (address, b0 ||| (b1 <<< 8)) :: Flash_Program_halfwords (address + 2) rest

/-! ## Target identification and orchestrator (`swd_dap.c`, `main.c`) -/

/-- `MCU_Type_t` from `swd_dap.h`. -/
inductive MCU_Type_t where
  | unknown
  | cortexM0
  | cortexM3
  | cortexM4
deriving DecidableEq

/-- `Target_IdentifyMCU` from `swd_dap.c`: the IDCODE switch. -/
def Target_IdentifyMCU (idcode : Nat) : MCU_Type_t :=
  if idcode = 0x0BB11477 then .cortexM0
  else if idcode = 0x4BA00477 then .cortexM3
  else if idcode = 0x4BA01477 then .cortexM4
  else .unknown

/-- `Target_Connect` from `swd_dap.c`, as a predicate on the collaborators:
`SWD_LineReset` always returns 0; `Target_Detect` succeeds iff the SWD read
succeeds (`swdOk`); the read IDCODE must differ from `0x00000000` and
`0xFFFFFFFF`. -/
def Target_Connect (swdOk : Bool) (idcode : Nat) : Bool :=
  swdOk && !(idcode = 0) && !(idcode = 0xFFFFFFFF)

/-- The collaborator outcomes a `Program_Target` run observes: whether the
file opens, whether SWD transactions succeed, the IDCODE the target returns,
and whether each flash phase succeeds. -/
structure PTEnv where
  fileOk : Bool
  swdOk : Bool
  idcode : Nat
  unlockOk : Bool
  eraseOk : Bool
  programOk : Bool
  verifyOk : Bool
deriving DecidableEq

/-- The externally visible operations `Program_Target` performs, in order. -/
inductive PTAction where
  | openFile
  | connect
  | detect
  | identify (t : MCU_Type_t)
  | unlock
  | eraseFull
  | program
  | verify
  | lock
  | reset
deriving DecidableEq

/-- `Program_Target` from `main.c`: the C return value (0, or -1..-7 at the
early returns) paired with the operations attempted, in order.  The MCU
identification only selects the message printed: the function proceeds to
`Flash_Unlock` and `Flash_EraseFull` for every successfully read IDCODE. -/
def Program_Target (env : PTEnv) : Int × List PTAction :=
  if env.fileOk = false then (-1, [.openFile])
  else if Target_Connect env.swdOk env.idcode = false then
    (-2, [.openFile, .connect])
  else if env.swdOk = false then (-3, [.openFile, .connect, .detect])
  else
    let t := Target_IdentifyMCU env.idcode
    let pre : List PTAction := [.openFile, .connect, .detect, .identify t]
    if env.unlockOk = false then (-4, pre ++ [.unlock])
    else if env.eraseOk = false then (-5, pre ++ [.unlock, .eraseFull, .lock])
    else if env.programOk = false then
      (-6, pre ++ [.unlock, .eraseFull, .program, .lock])
    else if env.verifyOk = false then
      (-7, pre ++ [.unlock, .eraseFull, .program, .verify, .lock])
    else (0, pre ++ [.unlock, .eraseFull, .program, .verify, .lock, .reset])

/-! ## Concrete inputs used by counterexamples and witnesses -/

/-- A 512-byte `SD_ReadSector` chunk: 34 complete Data-record lines
(`:0100000000FF`, one 0x00 byte at address 0) followed by the first two
characters `:0` of a 35th identical record. -/
def c2chunkA : List Nat :=
  (List.replicate 34 (strBytes ":0100000000FF\r\n")).flatten ++ strBytes ":0"

/-- The following chunk: the remainder of the straddling record, then the EOF
record. -/
def c2chunkB : List Nat := strBytes "100000000FF\r\n:00000001FF\r\n"

/-- A stream with one Data record and no EOF record. -/
def c3stream : List Nat := strBytes ":0100000000FF\r\n"

/-- A stream whose first record has the unsupported type 0x03. -/
def c4stream : List Nat := strBytes ":00000003FD\r\n:00000001FF\r\n"

/-- A stream with a single one-byte Data record at address 6, then EOF. -/
def c5stream : List Nat := strBytes ":01000600AB4E\r\n:00000001FF\r\n"

/-- A stream whose second Data record (4 bytes at 0x01FE) straddles the end
of the 512-byte unit opened at base 0 by the first record. -/
def c6stream : List Nat :=
  strBytes ":02000000AAAAAA\r\n:0401FE00DEADBEEFC5\r\n:00000001FF\r\n"

/-! ## Claims -/

/-- Claim C1 (code_bug evaluation).  The request bytes the code builds do not
carry the claimed bit sequence: for a DP read (`SWD_ReadDP(0x00)`, the IDCODE
read) the transmitted bits are `[1,0,0,0,0,0,0,1]` — the RnW bit (third
transmitted bit) is 0 although the access is a read, contradicting the code's
own comment `/* Start bit + APnDP=0 + RnW=1 */`; for AP accesses the base
`0x85` sets bit 2 (RnW), not bit 1 (APnDP), so the APnDP bit is 0; and
`request |= (addr & 0x0C)` places address bit 2 in the RnW slot and address
bit 3 in the A[2] slot, so e.g. `SWD_ReadDP(0x0C)` (RDBUFF) also differs from
the claimed sequence.  Consequently `SWD_TransferPacket`, which dispatches on
`request & 0x04`, treats every DP read as a write transaction. -/
theorem swd_request_bits_code_eval :
    SWD_WriteByte_bits (SWD_ReadDP_request 0x00) = [1, 0, 0, 0, 0, 0, 0, 1] ∧
    SWD_WriteByte_bits (SWD_ReadDP_request 0x00) ≠ adiv5RequestBits 0 1 0x00 ∧
    SWD_WriteByte_bits (SWD_ReadAP_request 0x00) ≠ adiv5RequestBits 1 1 0x00 ∧
    SWD_WriteByte_bits (SWD_WriteAP_request 0x00) ≠ adiv5RequestBits 1 0 0x00 ∧
    SWD_WriteByte_bits (SWD_ReadDP_request 0x0C) ≠ adiv5RequestBits 0 1 0x0C ∧
    SWD_ReadDP_request 0x00 &&& 0x04 = 0 := by
  decide

/-- Claim C2 (code_bug evaluation).  `HEX_ProcessFile` resets its line
accumulator at the start of every `SD_ReadSector` chunk, so a record line
straddling two 512-byte reads loses its first characters: on the chunked
stream the run fails (returns -1) with no sink call, while the very same
bytes delivered in a single read succeed with one emitted unit. -/
theorem hex_processFile_chunk_boundary_divergence :
    c2chunkA.length = 512 ∧
    pfIsErr (HEX_ProcessFile 0 [c2chunkA, c2chunkB]) = true ∧
    pfEmissions (HEX_ProcessFile 0 [c2chunkA, c2chunkB]) = [] ∧
    pfIsOk (HEX_ProcessFile 0 [c2chunkA ++ c2chunkB]) = true ∧
    (pfEmissions (HEX_ProcessFile 0 [c2chunkA ++ c2chunkB])).map
      (fun e => (e.addr, e.size)) = [(0, 1)] := by
  decide

/-- Claim C7 counterexample.  `Flash_Program` on an odd byte count emits the
final half-word with upper byte 0x00 (`half_word = data[i]` alone), not 0xFF
as the claim states: programming 3 bytes `DE AD BE` issues the writes
`(addr, 0xADDE)` and `(addr+2, 0x00BE)`. -/
theorem flash_odd_pad_not_ff_cx :
    Flash_Program_halfwords 0x08000000 [0xDE, 0xAD, 0xBE] =
      [(0x08000000, 0xADDE), (0x08000002, 0xBE)] ∧
    ((Flash_Program_halfwords 0x08000000 [0xDE, 0xAD, 0xBE]).getLastD (0, 0)).2 >>> 8
      ≠ 0xFF := by
  decide

theorem c7_append_even :
    ∀ (address : Nat) (l : List Nat) (b : Nat), l.length % 2 = 0 →
      Flash_Program_halfwords address (l ++ [b]) =
        Flash_Program_halfwords address l ++ [(address + l.length, b)]
  | address, [], b, _ => by simp [Flash_Program_halfwords]
  | _, [_], _, h => by simp at h
  | address, x :: y :: rest, b, h => by
    have h' : rest.length % 2 = 0 := by
      simp only [List.length_cons] at h
      omega
    have ih := c7_append_even (address + 2) rest b h'
    have step : Flash_Program_halfwords address ((x :: y :: rest) ++ [b]) =
        (address, x ||| y <<< 8) :: Flash_Program_halfwords (address + 2) (rest ++ [b]) := rfl
    have step2 : Flash_Program_halfwords address (x :: y :: rest) =
        (address, x ||| y <<< 8) :: Flash_Program_halfwords (address + 2) rest := rfl
    have harith : address + 2 + rest.length = address + (x :: y :: rest).length := by
      simp only [List.length_cons]
      omega
    rw [step, ih, step2, harith, List.cons_append]

theorem c7_halfword_bound :
    ∀ (address : Nat) (l : List Nat), (∀ x ∈ l, x < 256) →
      ∀ p ∈ Flash_Program_halfwords address l, p.2 < 65536
  | _, [], _, p, hp => by simp [Flash_Program_halfwords] at hp
  | address, [x], hx, p, hp => by
    simp [Flash_Program_halfwords] at hp
    have := hx x (by simp)
    subst hp
    omega
  | address, x :: y :: rest, hx, p, hp => by
    simp only [Flash_Program_halfwords, List.mem_cons] at hp
    rcases hp with hp | hp
    · have h1 : x < 2 ^ 16 := by have := hx x (by simp); omega
      have h2 : y <<< 8 < 2 ^ 16 := by
        have := hx y (by simp)
        simp only [Nat.shiftLeft_eq]
        omega
      subst hp
      have := Nat.or_lt_two_pow h1 h2
      omega
    · exact c7_halfword_bound (address + 2) rest
        (fun z hz => hx z (by simp [hz])) p hp

/-- Claim C7 amended: `Flash_Program` writes the data as 16-bit half-words
(each emitted value fits 16 bits when the input is bytes), and when the byte
count is odd the final half-word is the last byte alone — its upper byte is
padded with 0x00, not 0xFF. -/
theorem flash_halfword_odd_pad_zero :
    (∀ (address : Nat) (l : List Nat) (b : Nat), l.length % 2 = 0 →
        Flash_Program_halfwords address (l ++ [b]) =
          Flash_Program_halfwords address l ++ [(address + l.length, b)]) ∧
    (∀ (address : Nat) (l : List Nat), (∀ x ∈ l, x < 256) →
        ∀ p ∈ Flash_Program_halfwords address l, p.2 < 65536) :=
  ⟨c7_append_even, c7_halfword_bound⟩

/-- Claim C7 witness: the amended theorem at `address = 0x08000000`,
`l = [0xDE, 0xAD]`, `b = 0xBE`. -/
theorem flash_halfword_odd_pad_zero_witness :
    Flash_Program_halfwords 0x08000000 ([0xDE, 0xAD] ++ [0xBE]) =
      Flash_Program_halfwords 0x08000000 [0xDE, 0xAD] ++ [(0x08000000 + 2, 0xBE)] :=
  flash_halfword_odd_pad_zero.1 0x08000000 [0xDE, 0xAD] 0xBE (by decide)

/-- Claim C3 counterexample.  On a stream that ends without an EOF record,
`HEX_ProcessFile` does not return the parse error: it returns 0 (success) and
flushes the pending unit through the sink (here the one-byte unit at
address 0). -/
theorem hex_missing_eof_returns_ok_cx :
    pfIsOk (HEX_ProcessFile 0 [c3stream]) = true ∧
    (pfEmissions (HEX_ProcessFile 0 [c3stream])).map (fun e => (e.addr, e.size))
      = [(0, 1)] := by
  decide

/-- Claim C3 amended: when the chunk stream is exhausted without an early
return (no EOF record reached, no error), `HEX_ProcessFile` flushes the
pending unit (if non-empty) through the sink and returns 0. -/
theorem hex_stream_end_flushes_ok (ext_in : Nat) (chunks : List (List Nat))
    (h : pfIsGoing (foldChunks chunks pfInit) = true) :
    HEX_ProcessFile ext_in chunks =
      .ok ((goingState (foldChunks chunks pfInit)).ems ++
            pendingFlush (goingState (foldChunks chunks pfInit)).sector) := by
  unfold HEX_ProcessFile
  cases hfc : foldChunks chunks pfInit with
  | ok ems => rw [hfc] at h; simp [pfIsGoing] at h
  | err ems => rw [hfc] at h; simp [pfIsGoing] at h
  | going st => simp [goingState]

/-- Claim C3 witness: the amended theorem at the concrete EOF-less stream. -/
theorem hex_stream_end_flushes_ok_witness :
    HEX_ProcessFile 0 [c3stream] =
      .ok ((goingState (foldChunks [c3stream] pfInit)).ems ++
            pendingFlush (goingState (foldChunks [c3stream] pfInit)).sector) :=
  hex_stream_end_flushes_ok 0 [c3stream] (by decide)

/-- Claim C4 counterexample.  A record of the unsupported type 0x03 with a
valid checksum is accepted by `HEX_ParseLine`, and a stream containing it is
processed to a successful end with the record silently ignored (no sink call,
no error). -/
theorem hex_unknown_type_accepted_cx :
    (HEX_ParseLine (strBytes ":00000003FD") 0).isSome = true ∧
    pfIsOk (HEX_ProcessFile 0 [c4stream]) = true ∧
    pfEmissions (HEX_ProcessFile 0 [c4stream]) = [] := by
  decide

/-- Claim C4 amended: `HEX_ParseLine` validates no record type (any type with
valid framing and checksum parses), and `HEX_ProcessRecord` returns 0 leaving
the sector untouched for every record whose type is not Data — unknown types
are silently ignored, not rejected. -/
theorem hex_nonData_records_ignored :
    (∀ (record : HEX_Record_t) (sector : Program_Sector_t),
        record.record_type ≠ 0 → HEX_ProcessRecord record sector = (0, sector)) ∧
    (HEX_ParseLine (strBytes ":00000003FD") 0).isSome = true := by
  constructor
  · intro record sector h
    simp [HEX_ProcessRecord, h]
  · decide

/-- Claim C4 witness: the amended theorem applied to a concrete type-0x03
record and sector. -/
theorem hex_nonData_records_ignored_witness :
    HEX_ProcessRecord ⟨3, 0, 0, [], 0⟩ ⟨0, List.replicate 512 0, 0⟩ =
      (0, ⟨0, List.replicate 512 0, 0⟩) :=
  hex_nonData_records_ignored.1 ⟨3, 0, 0, [], 0⟩ ⟨0, List.replicate 512 0, 0⟩
    (by decide)

/-- Claim C5 counterexample.  A Data record at the unaligned absolute address
6 opens a fresh unit whose base is 6 itself — not `6 & !(512-1) = 0` — and
the unit is emitted with that unaligned base. -/
theorem hex_unit_base_unaligned_cx :
    (pfEmissions (HEX_ProcessFile 0 [c5stream])).map (fun e => (e.addr, e.size))
      = [(6, 1)] ∧
    ¬ (6 % 512 = 0) := by
  decide

/-- Claim C5 amended: when a Data record starts a fresh unit
(`sector.size == 0`), the unit base is set to the record's absolute address
itself, with no rounding down to a multiple of 512, the buffer is filled with
0xFF before the record's bytes are copied at offset 0, and the record is
accepted (status 0). -/
theorem hex_fresh_unit_base_eq_full_address (record : HEX_Record_t)
    (sector : Program_Sector_t) (h0 : record.record_type = 0)
    (hs : sector.size = 0)
    (hw : (record.extended_address ||| record.address) + 512 < 4294967296)
    (hl : record.data_len ≤ 512) :
    HEX_ProcessRecord record sector =
      (0, ⟨record.extended_address ||| record.address,
           listWrite (List.replicate 512 255) 0 (record.data.take record.data_len),
           record.data_len⟩) := by
  have hu : u32 ((record.extended_address ||| record.address) + 512) =
      (record.extended_address ||| record.address) + 512 :=
    Nat.mod_eq_of_lt hw
  simp only [HEX_ProcessRecord, h0, hs, if_true, if_pos rfl, ne_eq,
    not_true_eq_false, if_false, hu]
  rw [if_neg (by omega), if_neg (by omega)]
  simp only [Nat.sub_self, Nat.zero_add]
  congr 1
  · congr 1
    by_cases hd : 0 < record.data_len
    · rw [if_pos (by omega)]
    · rw [if_neg (by omega)]
      omega

/-- Claim C5 witness: the amended theorem at the record of `c5stream` (one
byte 0xAB at absolute address 6) and the zeroed sector. -/
theorem hex_fresh_unit_base_eq_full_address_witness :
    HEX_ProcessRecord ⟨0, 6, 1, [0xAB], 0⟩ ⟨0, List.replicate 512 0, 0⟩ =
      (0, ⟨6, listWrite (List.replicate 512 255) 0 [0xAB], 1⟩) :=
  hex_fresh_unit_base_eq_full_address ⟨0, 6, 1, [0xAB], 0⟩
    ⟨0, List.replicate 512 0, 0⟩ rfl rfl (by decide) (by decide)

/-- Claim C6 counterexample.  A 4-byte Data record at address 0x01FE inside a
unit based at 0 extends past base+512: instead of splitting it into two sink
calls, the run fails (`HEX_ProcessRecord` returns -1, `HEX_ProcessFile`
returns -1) with no sink call at all. -/
theorem hex_straddle_errors_cx :
    pfIsErr (HEX_ProcessFile 0 [c6stream]) = true ∧
    pfEmissions (HEX_ProcessFile 0 [c6stream]) = [] := by
  decide

/-- Claim C6 amended: a Data record whose absolute address lies inside the
current non-empty unit but whose bytes extend past base+512 makes
`HEX_ProcessRecord` return -1 (the `/* Data overflow */` branch) with the
sector unchanged; `HEX_ProcessFile` then aborts with an error — the record is
not split. -/
theorem hex_straddle_returns_error (record : HEX_Record_t)
    (sector : Program_Sector_t) (h0 : record.record_type = 0)
    (hs : sector.size ≠ 0)
    (hge : sector.base_address ≤ record.extended_address ||| record.address)
    (hlt : (record.extended_address ||| record.address) < sector.base_address + 512)
    (hw : sector.base_address + 512 < 4294967296)
    (hover : 512 <
      ((record.extended_address ||| record.address) - sector.base_address) +
        record.data_len) :
    HEX_ProcessRecord record sector = (-1, sector) := by
  have hu : u32 (sector.base_address + 512) = sector.base_address + 512 :=
    Nat.mod_eq_of_lt hw
  simp only [HEX_ProcessRecord, h0, hs, if_neg hs, ne_eq, not_true_eq_false,
    if_false, hu]
  rw [if_neg (by omega), if_pos (by omega)]

/-- Claim C6 witness: the amended theorem at the straddling record of
`c6stream` (4 bytes at 0x01FE) and the unit opened at base 0. -/
theorem hex_straddle_returns_error_witness :
    HEX_ProcessRecord ⟨0, 0x01FE, 4, [0xDE, 0xAD, 0xBE, 0xEF], 0⟩
        ⟨0, List.replicate 512 255, 2⟩ =
      (-1, ⟨0, List.replicate 512 255, 2⟩) :=
  hex_straddle_returns_error ⟨0, 0x01FE, 4, [0xDE, 0xAD, 0xBE, 0xEF], 0⟩
    ⟨0, List.replicate 512 255, 2⟩ rfl (by decide) (by decide) (by decide)
    (by decide) (by decide)

/-- Claim C8 counterexample.  With every collaborator succeeding and the
target returning the unknown IDCODE `0x12345678`, `Program_Target` does not
abort with the TargetConnect error: it classifies the MCU as Unknown, prints
it, and proceeds through `Flash_Unlock` and `Flash_EraseFull` to a successful
return 0. -/
theorem program_target_unknown_id_proceeds_cx :
    (Program_Target ⟨true, true, 0x12345678, true, true, true, true⟩).1 = 0 ∧
    PTAction.unlock ∈ (Program_Target ⟨true, true, 0x12345678, true, true, true, true⟩).2 ∧
    PTAction.eraseFull ∈ (Program_Target ⟨true, true, 0x12345678, true, true, true, true⟩).2 ∧
    Target_IdentifyMCU 0x12345678 = MCU_Type_t.unknown := by
  decide

/-- Claim C8 amended: `Target_IdentifyMCU` implements exactly the table
`{0x0BB11477 → CortexM0, 0x4BA00477 → CortexM3, 0x4BA01477 → CortexM4}`, every
other IDCODE mapping to Unknown; an IDCODE of 0 or 0xFFFFFFFF makes
`Target_Connect` fail so the orchestrator aborts before identification, but
for every other IDCODE — identified or Unknown alike — the orchestrator
proceeds to attempt the flash unlock (and, when the unlock succeeds, the
full-chip erase). -/
theorem target_identify_table_and_no_abort :
    Target_IdentifyMCU 0x0BB11477 = MCU_Type_t.cortexM0 ∧
    Target_IdentifyMCU 0x4BA00477 = MCU_Type_t.cortexM3 ∧
    Target_IdentifyMCU 0x4BA01477 = MCU_Type_t.cortexM4 ∧
    (∀ idcode : Nat, idcode ≠ 0x0BB11477 → idcode ≠ 0x4BA00477 → idcode ≠ 0x4BA01477 →
      Target_IdentifyMCU idcode = MCU_Type_t.unknown) ∧
    (∀ idcode : Nat, (idcode = 0 ∨ idcode = 0xFFFFFFFF) →
      ∀ swdOk : Bool, Target_Connect swdOk idcode = false) ∧
    (∀ env : PTEnv, env.fileOk = true → env.swdOk = true →
      env.idcode ≠ 0 → env.idcode ≠ 0xFFFFFFFF →
      PTAction.identify (Target_IdentifyMCU env.idcode) ∈ (Program_Target env).2 ∧
      PTAction.unlock ∈ (Program_Target env).2 ∧
      (env.unlockOk = true → PTAction.eraseFull ∈ (Program_Target env).2)) := by
  refine ⟨by decide, by decide, by decide, ?_, ?_, ?_⟩
  · intro idcode h0 h3 h4
    simp [Target_IdentifyMCU, h0, h3, h4]
  · rintro idcode (rfl | rfl) swdOk <;> simp [Target_Connect]
  · rintro ⟨fo, so, idcode, uo, eo, po, vo⟩ hf hs h0 hF
    simp only at hf hs h0 hF
    subst hf hs
    cases uo <;> cases eo <;> cases po <;> cases vo <;>
      simp [Program_Target, Target_Connect, h0, hF]

/-- Claim C8 witness: the no-abort part of the amended theorem at a concrete
environment whose IDCODE `0x4BA00477` identifies as Cortex-M3. -/
theorem target_identify_table_and_no_abort_witness :
    PTAction.unlock ∈
      (Program_Target ⟨true, true, 0x4BA00477, true, true, true, true⟩).2 :=
  (target_identify_table_and_no_abort.2.2.2.2.2
    ⟨true, true, 0x4BA00477, true, true, true, true⟩
    rfl rfl (by decide) (by decide)).2.1

theorem c9_verify_iff (line : List Nat) :
    HEX_VerifyChecksum line = 0 ↔
      (strGet line 0 = 58 ∧ 11 ≤ strlen line ∧ (lineBytes line).isSome = true ∧
        ((lineBytes line).getD []).sum % 256 = 0) := by
  simp only [HEX_VerifyChecksum, lineBytes]
  rw [sumLoop_eq_decodeLoop line (strlen line) (strlen line) 1 0 (by omega)]
  by_cases h1 : strGet line 0 = 58
  · by_cases h2 : strlen line < 11
    · simp only [h1, ne_eq, not_true_eq_false, if_false, if_pos h2, true_and]
      constructor
      · intro hcon
        exact absurd hcon (by decide)
      · rintro ⟨hlen, -⟩
        omega
    · simp only [h1, ne_eq, not_true_eq_false, if_false, if_neg h2, true_and]
      cases hd : decodeLoop line (strlen line) (strlen line) 1 with
      | none => simp
      | some bs =>
        simp only [Option.map_some', Option.isSome_some, Option.getD_some,
          List.sum_append, List.sum_cons, List.sum_nil, Nat.zero_add,
          Nat.add_zero, true_and, and_true]
        constructor
        · intro hcon
          refine ⟨by omega, ?_⟩
          by_cases hc : (bs.sum % 256 +
              c_u8 (hex_string_to_byte line (1 + 2 * bs.length))) % 256 = 0
          · omega
          · rw [if_neg hc] at hcon
            exact absurd hcon (by decide)
        · rintro ⟨-, hsum⟩
          rw [if_pos (by omega)]
  · simp only [h1, ne_eq, not_false_eq_true, if_true]
    constructor
    · intro hcon
      exact absurd hcon (by decide)
    · rintro ⟨hcon, -⟩
      exact absurd hcon (by simp [h1])

/-- Claim C9: if `HEX_ParseLine` succeeds on a line then the arithmetic 8-bit
sum of all decoded record bytes of the line, including the checksum byte, is
zero modulo 256; and `HEX_VerifyChecksum` accepts exactly the lines that pass
the framing gates (leading `:`, length at least 11, every summed pair a valid
hex pair) and whose recomputed byte sum has low byte zero. -/
theorem hex_checksum_law :
    (∀ (line : List Nat) (ext : Nat), (HEX_ParseLine line ext).isSome = true →
        ((lineBytes line).getD []).sum % 256 = 0) ∧
    (∀ line : List Nat, HEX_VerifyChecksum line = 0 ↔
        (strGet line 0 = 58 ∧ 11 ≤ strlen line ∧ (lineBytes line).isSome = true ∧
          ((lineBytes line).getD []).sum % 256 = 0)) := by
  refine ⟨?_, c9_verify_iff⟩
  intro line ext h
  by_cases h1 : strGet line 0 = 58
  · by_cases hv : HEX_VerifyChecksum line = 0
    · exact ((c9_verify_iff line).mp hv).2.2.2
    · simp [HEX_ParseLine, h1, hv] at h
  · simp [HEX_ParseLine, h1] at h

/-- Claim C9 witness: the parse-implies-zero-sum part at the EOF record line
`:00000001FF`. -/
theorem hex_checksum_law_witness :
    ((lineBytes (strBytes ":00000001FF")).getD []).sum % 256 = 0 :=
  hex_checksum_law.1 (strBytes ":00000001FF") 0 (by decide)

/-- Claim C10: `HEX_ProcessFile` overwrites the module-level extended address
with 0 on entry, so its result is independent of the value a previous call
left behind; `HEX_ParseLine` stores the incoming extended address into the
record it returns and changes it only when the parsed record has type 0x04
and `data_len = 2`, in which case the new value is
`data[0] << 24 | data[1] << 16`. -/
theorem hex_extended_address_reset_and_update :
    (∀ (g g' : Nat) (chunks : List (List Nat)),
        HEX_ProcessFile g chunks = HEX_ProcessFile g' chunks) ∧
    pfInit.ext = 0 ∧
    (∀ (line : List Nat) (ext : Nat) (record : HEX_Record_t) (ext' : Nat),
        HEX_ParseLine line ext = some (record, ext') →
        record.extended_address = ext ∧
        (¬(record.record_type = 4 ∧ record.data_len = 2) → ext' = ext) ∧
        ((record.record_type = 4 ∧ record.data_len = 2) →
          ext' = (record.data.getD 0 0) <<< 24 ||| (record.data.getD 1 0) <<< 16)) := by
  refine ⟨fun g g' chunks => rfl, rfl, ?_⟩
  intro line ext record ext' h
  by_cases h1 : strGet line 0 = 58
  · by_cases hv : HEX_VerifyChecksum line = 0
    · simp only [HEX_ParseLine, h1, hv, ne_eq, not_true_eq_false, if_false] at h
      cases hp : parseData line 9 (c_u8 (hex_string_to_byte line 1)) with
      | none => rw [hp] at h; exact absurd h (by simp)
      | some ds =>
        rw [hp] at h
        simp only [Option.some_inj, Prod.mk.injEq] at h
        obtain ⟨hrec, hext⟩ := h
        subst hrec
        refine ⟨rfl, ?_, ?_⟩
        · intro hnot
          rw [← hext, if_neg hnot]
        · intro hyes
          rw [← hext, if_pos hyes]
    · simp [HEX_ParseLine, h1, hv] at h
  · simp [HEX_ParseLine, h1] at h

/-- Claim C10 witness: the update rule at the Type-04 line `:020000040800F2`
parsed with a stale extended address 7 — the record keeps 7, the new extended
address is `0x08000000`. -/
theorem hex_extended_address_reset_and_update_witness :
    (⟨4, 0, 2, [8, 0], 7⟩ : HEX_Record_t).extended_address = 7 ∧
    (¬((4 : Nat) = 4 ∧ (2 : Nat) = 2) → (0x08000000 : Nat) = 7) ∧
    (((4 : Nat) = 4 ∧ (2 : Nat) = 2) →
      (0x08000000 : Nat) = ([8, 0].getD 0 0) <<< 24 ||| ([8, 0].getD 1 0) <<< 16) :=
  hex_extended_address_reset_and_update.2.2 (strBytes ":020000040800F2") 7
    ⟨4, 0, 2, [8, 0], 7⟩ 0x08000000 (by decide)
